import Mathlib

/-!
Shallow embedding of the xous-sys user-space syscall library
(src/lib.rs, src/definitions/mod.rs, src/unstable.rs).

Machine words (Rust usize) are modelled as Nat; u32 truncation is written
as an explicit mod 2^32.  The trap primitive (raw_syscall, an opaque ecall
taking 8 words and returning 8 words) is modelled as a function parameter
of type Words8 to Words8.  Buffer-ownership events (core.mem.forget of a
Box, or the implicit drop of a Box on an early return) and trap
invocations are recorded in an explicit event trace, so that statements
about when a buffer is consumed, dropped, or freed relative to the
syscall become statements about the trace.
-/

namespace Xous

/-- The 8 machine words exchanged with the trap primitive, in order
a0..a7 (both for the encoded call and for the kernel response). -/
structure Words8 where
  w0 : Nat
  w1 : Nat
  w2 : Nat
  w3 : Nat
  w4 : Nat
  w5 : Nat
  w6 : Nat
  w7 : Nat
deriving DecidableEq, Repr

/-- A list of all known errors that may be returned by the Xous kernel
(enum Error in src/definitions/mod.rs). -/
inductive Error where
  | NoError
  | BadAlignment
  | BadAddress
  | OutOfMemory
  | MemoryInUse
  | InterruptNotFound
  | InterruptInUse
  | InvalidString
  | ServerExists
  | ServerNotFound
  | ProcessNotFound
  | ProcessNotChild
  | ProcessTerminated
  | Timeout
  | InternalError
  | ServerQueueFull
  | ThreadNotAvailable
  | UnhandledSyscall
  | InvalidSyscall
  | ShareViolation
  | InvalidThread
  | InvalidPid
  | UnknownError
  | AccessDenied
  | UseBeforeInit
  | DoubleFree
  | DebugInProgress
  | InvalidLimit
  | NotFound
  | InvalidCoding
  | HardwareError
  | SerializationError
  | InvalidArgument
  | NetworkError
  | StorageError
  | Unavailable
  | ParseError
  | InvalidCore
  | VerificationError
  | SecurityError
deriving DecidableEq, Repr

/-- The numeric discriminant of each error kind (the repr(usize) value
assigned in the enum Error declaration). -/
def Error.toNat : Error → Nat
  | .NoError => 0
  | .BadAlignment => 1
  | .BadAddress => 2
  | .OutOfMemory => 3
  | .MemoryInUse => 4
  | .InterruptNotFound => 5
  | .InterruptInUse => 6
  | .InvalidString => 7
  | .ServerExists => 8
  | .ServerNotFound => 9
  | .ProcessNotFound => 10
  | .ProcessNotChild => 11
  | .ProcessTerminated => 12
  | .Timeout => 13
  | .InternalError => 14
  | .ServerQueueFull => 15
  | .ThreadNotAvailable => 16
  | .UnhandledSyscall => 17
  | .InvalidSyscall => 18
  | .ShareViolation => 19
  | .InvalidThread => 20
  | .InvalidPid => 21
  | .UnknownError => 22
  | .AccessDenied => 23
  | .UseBeforeInit => 24
  | .DoubleFree => 25
  | .DebugInProgress => 26
  | .InvalidLimit => 27
  | .NotFound => 28
  | .InvalidCoding => 29
  | .HardwareError => 30
  | .SerializationError => 31
  | .InvalidArgument => 32
  | .NetworkError => 33
  | .StorageError => 34
  | .Unavailable => 35
  | .ParseError => 36
  | .InvalidCore => 37
  | .VerificationError => 38
  | .SecurityError => 39

/-- impl From of usize for Error: the total decode of a raw kernel
failure code.  Mirrors the match in src/definitions/mod.rs line by line;
note the source comments out the arm for 22 (UnknownError), which is
covered by the default arm instead. -/
def Error.fromUsize : Nat → Error
  | 0 => .NoError
  | 1 => .BadAlignment
  | 2 => .BadAddress
  | 3 => .OutOfMemory
  | 4 => .MemoryInUse
  | 5 => .InterruptNotFound
  | 6 => .InterruptInUse
  | 7 => .InvalidString
  | 8 => .ServerExists
  | 9 => .ServerNotFound
  | 10 => .ProcessNotFound
  | 11 => .ProcessNotChild
  | 12 => .ProcessTerminated
  | 13 => .Timeout
  | 14 => .InternalError
  | 15 => .ServerQueueFull
  | 16 => .ThreadNotAvailable
  | 17 => .UnhandledSyscall
  | 18 => .InvalidSyscall
  | 19 => .ShareViolation
  | 20 => .InvalidThread
  | 21 => .InvalidPid
  | 23 => .AccessDenied
  | 24 => .UseBeforeInit
  | 25 => .DoubleFree
  | 26 => .DebugInProgress
  | 27 => .InvalidLimit
  | 28 => .NotFound
  | 29 => .InvalidCoding
  | 30 => .HardwareError
  | 31 => .SerializationError
  | 32 => .InvalidArgument
  | 33 => .NetworkError
  | 34 => .StorageError
  | 35 => .Unavailable
  | 36 => .ParseError
  | 37 => .InvalidCore
  | 38 => .VerificationError
  | 39 => .SecurityError
  | _ => .UnknownError

/-- impl From of i32 for Error: try_into usize fails exactly on negative
inputs (usize is at least 32 bits on all supported targets), in which
case the result is UnknownError; otherwise the usize decode is used. -/
def Error.fromI32 (src : Int) : Error :=
  if src < 0 then .UnknownError else Error.fromUsize src.toNat

/-- Indicates a particular syscall number as used by the Xous kernel
(enum Syscall, repr(usize)). -/
inductive Syscall where
  | MapMemory
  | Yield
  | UpdateMemoryFlags
  | ReceiveMessage
  | SendMessage
  | Connect
  | CreateThread
  | UnmapMemory
  | ReturnMemory
  | TerminateProcess
  | TrySendMessage
  | TryConnect
  | GetThreadId
  | Disconnect
  | JoinThread
  | AdjustProcessLimit
  | ReturnScalar
deriving DecidableEq, Repr

/-- The numeric discriminants assigned in the Syscall enum. -/
def Syscall.toNat : Syscall → Nat
  | .MapMemory => 2
  | .Yield => 3
  | .UpdateMemoryFlags => 12
  | .ReceiveMessage => 15
  | .SendMessage => 16
  | .Connect => 17
  | .CreateThread => 18
  | .UnmapMemory => 19
  | .ReturnMemory => 20
  | .TerminateProcess => 22
  | .TrySendMessage => 24
  | .TryConnect => 25
  | .GetThreadId => 32
  | .Disconnect => 35
  | .JoinThread => 36
  | .AdjustProcessLimit => 38
  | .ReturnScalar => 40

/-- Result-shape tags returned in output word 0 (enum SyscallResult,
repr(usize)). -/
inductive SyscallResult where
  | Ok
  | Error
  | MemoryRange
  | ConnectionId
  | Message
  | ThreadId
  | Scalar1
  | Scalar2
  | MemoryReturned
  | Scalar5
deriving DecidableEq, Repr

/-- The numeric discriminants assigned in the SyscallResult enum. -/
def SyscallResult.toNat : SyscallResult → Nat
  | .Ok => 0
  | .Error => 1
  | .MemoryRange => 3
  | .ConnectionId => 7
  | .Message => 9
  | .ThreadId => 10
  | .Scalar1 => 14
  | .Scalar2 => 15
  | .MemoryReturned => 18
  | .Scalar5 => 20

/-- Message invocation types for the SendMessage syscall
(enum InvokeType). -/
inductive InvokeType where
  | LendMut
  | Lend
  | Move
  | Scalar
  | BlockingScalar
deriving DecidableEq, Repr

/-- The numeric discriminants assigned in the InvokeType enum. -/
def InvokeType.toNat : InvokeType → Nat
  | .LendMut => 1
  | .Lend => 2
  | .Move => 3
  | .Scalar => 4
  | .BlockingScalar => 5

/-- Limits that can be passed to AdjustLimit (enum Limits,
repr(usize)). -/
inductive Limits where
  | HeapMaximum
  | HeapSize
deriving DecidableEq, Repr

/-- The numeric discriminants assigned in the Limits enum. -/
def Limits.toNat : Limits → Nat
  | .HeapMaximum => 1
  | .HeapSize => 2

/-- A representation of a connection to a Xous service: an opaque u32
capability (struct Connection(u32)).  The field is the u32 value. -/
structure Connection where
  id : Nat
deriving DecidableEq, Repr

/-- A thread identifier (struct ThreadId(usize)). -/
structure ThreadId where
  id : Nat
deriving DecidableEq, Repr

/-- The error type of ServerAddress construction
(enum ServerAddressError). -/
inductive ServerAddressError where
  | InvalidLength
deriving DecidableEq, Repr

/-- A server address: 4 little-endian u32 words holding a 16-byte name
(struct ServerAddress([u32; 4])). -/
structure ServerAddress where
  a0 : Nat
  a1 : Nat
  a2 : Nat
  a3 : Nat
deriving DecidableEq, Repr

/-- Byte i of the zero-initialised 16-byte staging array this_temp after
the zip copy from the source bytes b: the source byte when i is in
range, 0 otherwise. -/
def byteAt (b : List Nat) (i : Nat) : Nat :=
  b.getD i 0

/-- u32 from_le_bytes over the 4 staging bytes starting at index i. -/
def wordFromLe (b : List Nat) (i : Nat) : Nat :=
  byteAt b i + 256 * byteAt b (i + 1) + 65536 * byteAt b (i + 2) +
    16777216 * byteAt b (i + 3)

/-- impl TryFrom of a byte string for ServerAddress: reject an empty or
over-16-byte name, otherwise zero-pad to 16 bytes and pack as 4
little-endian u32 words (src/definitions/mod.rs). -/
def ServerAddress.tryFromBytes (b : List Nat) : Except ServerAddressError ServerAddress :=
  if b.length = 0 ∨ b.length > 16 then .error .InvalidLength
  else .ok ⟨wordFromLe b 0, wordFromLe b 4, wordFromLe b 8, wordFromLe b 12⟩

/-- The 4 little-endian bytes of one u32 word (u32 to_le_bytes). -/
def wordToLe (w : Nat) : List Nat :=
  [w % 256, w / 256 % 256, w / 65536 % 256, w / 16777216 % 256]

/-- Reading back the 16 bytes held by the 4 constituent words of a
ServerAddress, in order. -/
def ServerAddress.decodeBytes (a : ServerAddress) : List Nat :=
  wordToLe a.a0 ++ wordToLe a.a1 ++ wordToLe a.a2 ++ wordToLe a.a3

/-- Events observable at the ownership / privilege boundary: one trap
invocation with its 8 input and 8 output words, a core.mem.forget of
the buffer argument, or the implicit drop (caller-side free) of the
buffer argument when it goes out of scope. -/
inductive Event where
  | trap (input : Words8) (output : Words8)
  | forgetBuf
  | dropBuf
deriving DecidableEq, Repr

/-- fn syscall (src/lib.rs): invoke the trap primitive once on the 8
encoded words, fail with the decoded Error when output word 0 is 1,
otherwise return all 8 output words unchanged.  The trace records the
single trap invocation. -/
def syscall (trap : Words8 → Words8) (inp : Words8) :
    Except Error Words8 × List Event :=
  let out := trap inp
  (if out.w0 = 1 then .error (Error.fromUsize out.w1) else .ok out,
   [Event.trap inp out])

/-- Encoded call of fn lend_mut: SendMessage with the LendMut invoke
type, the opcode, the buffer (address, length) and the 2 extra words. -/
def lend_mut_encode (conn : Connection) (opcode addr len arg1 arg2 : Nat) : Words8 :=
  ⟨Syscall.SendMessage.toNat, conn.id, InvokeType.LendMut.toNat, opcode, addr, len, arg1, arg2⟩

/-- fn lend_mut: mutably lend the buffer, returning output words 1 and 2
on success. -/
def lend_mut (trap : Words8 → Words8) (conn : Connection)
    (opcode addr len arg1 arg2 : Nat) : Except Error (Nat × Nat) :=
  match (syscall trap (lend_mut_encode conn opcode addr len arg1 arg2)).1 with
  | .error e => .error e
  | .ok out => .ok (out.w1, out.w2)

/-- Encoded call of fn try_lend_mut: as lend_mut but with the
TrySendMessage syscall kind. -/
def try_lend_mut_encode (conn : Connection) (opcode addr len arg1 arg2 : Nat) : Words8 :=
  ⟨Syscall.TrySendMessage.toNat, conn.id, InvokeType.LendMut.toNat, opcode, addr, len, arg1, arg2⟩

/-- fn try_lend_mut. -/
def try_lend_mut (trap : Words8 → Words8) (conn : Connection)
    (opcode addr len arg1 arg2 : Nat) : Except Error (Nat × Nat) :=
  match (syscall trap (try_lend_mut_encode conn opcode addr len arg1 arg2)).1 with
  | .error e => .error e
  | .ok out => .ok (out.w1, out.w2)

/-- Encoded call of fn lend: SendMessage with the Lend invoke type. -/
def lend_encode (conn : Connection) (opcode addr len arg1 arg2 : Nat) : Words8 :=
  ⟨Syscall.SendMessage.toNat, conn.id, InvokeType.Lend.toNat, opcode, addr, len, arg1, arg2⟩

/-- fn lend: immutably lend the buffer, returning output words 1 and 2
on success. -/
def lend (trap : Words8 → Words8) (conn : Connection)
    (opcode addr len arg1 arg2 : Nat) : Except Error (Nat × Nat) :=
  match (syscall trap (lend_encode conn opcode addr len arg1 arg2)).1 with
  | .error e => .error e
  | .ok out => .ok (out.w1, out.w2)

/-- Encoded call of fn try_lend. -/
def try_lend_encode (conn : Connection) (opcode addr len arg1 arg2 : Nat) : Words8 :=
  ⟨Syscall.TrySendMessage.toNat, conn.id, InvokeType.Lend.toNat, opcode, addr, len, arg1, arg2⟩

/-- fn try_lend. -/
def try_lend (trap : Words8 → Words8) (conn : Connection)
    (opcode addr len arg1 arg2 : Nat) : Except Error (Nat × Nat) :=
  match (syscall trap (try_lend_encode conn opcode addr len arg1 arg2)).1 with
  | .error e => .error e
  | .ok out => .ok (out.w1, out.w2)

/-- Encoded call of fn scalar: SendMessage with the Scalar invoke type
and 5 argument words. -/
def scalar_encode (conn : Connection) (x0 x1 x2 x3 x4 : Nat) : Words8 :=
  ⟨Syscall.SendMessage.toNat, conn.id, InvokeType.Scalar.toNat, x0, x1, x2, x3, x4⟩

/-- fn scalar: fire-and-forget scalar send, no reply words consumed. -/
def scalar (trap : Words8 → Words8) (conn : Connection)
    (x0 x1 x2 x3 x4 : Nat) : Except Error Unit :=
  match (syscall trap (scalar_encode conn x0 x1 x2 x3 x4)).1 with
  | .error e => .error e
  | .ok _ => .ok ()

/-- Encoded call of fn try_scalar. -/
def try_scalar_encode (conn : Connection) (x0 x1 x2 x3 x4 : Nat) : Words8 :=
  ⟨Syscall.TrySendMessage.toNat, conn.id, InvokeType.Scalar.toNat, x0, x1, x2, x3, x4⟩

/-- fn try_scalar. -/
def try_scalar (trap : Words8 → Words8) (conn : Connection)
    (x0 x1 x2 x3 x4 : Nat) : Except Error Unit :=
  match (syscall trap (try_scalar_encode conn x0 x1 x2 x3 x4)).1 with
  | .error e => .error e
  | .ok _ => .ok ()

/-- Encoded call of fn blocking_scalar: SendMessage with the
BlockingScalar invoke type and 5 argument words. -/
def blocking_scalar_encode (conn : Connection) (x0 x1 x2 x3 x4 : Nat) : Words8 :=
  ⟨Syscall.SendMessage.toNat, conn.id, InvokeType.BlockingScalar.toNat, x0, x1, x2, x3, x4⟩

/-- fn blocking_scalar: scalar round trip, returning output words 1-5 on
success.  Note the source checks no result-shape tag here. -/
def blocking_scalar (trap : Words8 → Words8) (conn : Connection)
    (x0 x1 x2 x3 x4 : Nat) : Except Error (Nat × Nat × Nat × Nat × Nat) :=
  match (syscall trap (blocking_scalar_encode conn x0 x1 x2 x3 x4)).1 with
  | .error e => .error e
  | .ok out => .ok (out.w1, out.w2, out.w3, out.w4, out.w5)

/-- Encoded call of fn try_blocking_scalar. -/
def try_blocking_scalar_encode (conn : Connection) (x0 x1 x2 x3 x4 : Nat) : Words8 :=
  ⟨Syscall.TrySendMessage.toNat, conn.id, InvokeType.BlockingScalar.toNat, x0, x1, x2, x3, x4⟩

/-- fn try_blocking_scalar. -/
def try_blocking_scalar (trap : Words8 → Words8) (conn : Connection)
    (x0 x1 x2 x3 x4 : Nat) : Except Error (Nat × Nat × Nat × Nat × Nat) :=
  match (syscall trap (try_blocking_scalar_encode conn x0 x1 x2 x3 x4)).1 with
  | .error e => .error e
  | .ok out => .ok (out.w1, out.w2, out.w3, out.w4, out.w5)

/-- Encoded call of fn connect: the Connect syscall kind carrying the 4
address words and three zero words. -/
def connect_encode (a : ServerAddress) : Words8 :=
  ⟨Syscall.Connect.toNat, a.a0, a.a1, a.a2, a.a3, 0, 0, 0⟩

/-- fn connect: build a Connection from output word 1 (as u32) on
success.  Note the source checks no result-shape tag here. -/
def connect (trap : Words8 → Words8) (a : ServerAddress) : Except Error Connection :=
  match (syscall trap (connect_encode a)).1 with
  | .error e => .error e
  | .ok out => .ok ⟨out.w1 % 4294967296⟩

/-- Encoded call of fn try_connect: the source issues the Connect
syscall kind (not TryConnect) with the same 4 address words. -/
def try_connect_encode (a : ServerAddress) : Words8 :=
  ⟨Syscall.Connect.toNat, a.a0, a.a1, a.a2, a.a3, 0, 0, 0⟩

/-- fn try_connect: as connect, but a ServerNotFound error becomes a
successful absent result; every other error propagates. -/
def try_connect (trap : Words8 → Words8) (a : ServerAddress) :
    Except Error (Option Connection) :=
  match (syscall trap (try_connect_encode a)).1 with
  | .ok out => .ok (some ⟨out.w1 % 4294967296⟩)
  | .error .ServerNotFound => .ok none
  | .error e => .error e

/-- Encoded call of fn adjust_limit: AdjustProcessLimit with the knob
id, the expected current value and the new value. -/
def adjust_limit_encode (knob : Limits) (current new : Nat) : Words8 :=
  ⟨Syscall.AdjustProcessLimit.toNat, knob.toNat, current, new, 0, 0, 0, 0⟩

/-- fn adjust_limit: accept a Scalar2-tagged response echoing the knob
in output word 1, returning output word 2; or a Scalar5-tagged response
echoing the knob, returning output word 1; anything else is
InternalError. -/
def adjust_limit (trap : Words8 → Words8) (knob : Limits) (current new : Nat) :
    Except Error Nat :=
  match (syscall trap (adjust_limit_encode knob current new)).1 with
  | .error e => .error e
  | .ok out =>
    if out.w0 = SyscallResult.Scalar2.toNat ∧ out.w1 = knob.toNat then
      .ok out.w2
    else if out.w0 = SyscallResult.Scalar5.toNat ∧ out.w1 = knob.toNat then
      .ok out.w1
    else
      .error .InternalError

/-- Encoded call of fn move (src/unstable.rs): SendMessage with the
Move invoke type, the opcode, the buffer (address, length) captured
before the forget, and the 2 extra words. -/
def move_encode (conn : Connection) (opcode addr len arg1 arg2 : Nat) : Words8 :=
  ⟨Syscall.SendMessage.toNat, conn.id, InvokeType.Move.toNat, opcode, addr, len, arg1, arg2⟩

/-- fn move: the boxed buffer is forgotten (consumed, never dropped)
before the syscall is issued, so the trace is a forget followed by the
single trap, whatever the kernel answers; the result propagates any
decoded error. -/
def move (trap : Words8 → Words8) (conn : Connection)
    (opcode addr len arg1 arg2 : Nat) : Except Error Unit × List Event :=
  let (r, tr) := syscall trap (move_encode conn opcode addr len arg1 arg2)
  (match r with
   | .error e => .error e
   | .ok _ => .ok (),
   Event.forgetBuf :: tr)

/-- Encoded call of fn try_move. -/
def try_move_encode (conn : Connection) (opcode addr len arg1 arg2 : Nat) : Words8 :=
  ⟨Syscall.TrySendMessage.toNat, conn.id, InvokeType.Move.toNat, opcode, addr, len, arg1, arg2⟩

/-- fn try_move: same forget-before-trap discipline as move, with the
TrySendMessage syscall kind. -/
def try_move (trap : Words8 → Words8) (conn : Connection)
    (opcode addr len arg1 arg2 : Nat) : Except Error Unit × List Event :=
  let (r, tr) := syscall trap (try_move_encode conn opcode addr len arg1 arg2)
  (match r with
   | .error e => .error e
   | .ok _ => .ok (),
   Event.forgetBuf :: tr)

/-- Encoded call of fn map_memory: MapMemory with the optional physical
and virtual address hints (0 when absent), the byte count
(count times the element size) and the flag bits. -/
def map_memory_encode (phys virt : Option Nat) (count tsize flagsBits : Nat) : Words8 :=
  ⟨Syscall.MapMemory.toNat, phys.getD 0, virt.getD 0, count * tsize, flagsBits, 0, 0, 0⟩

/-- fn map_memory: require the MemoryRange result-shape tag, then
return the boxed slice as its (start address, element count) pair, the
length being output word 2 divided by the element size. -/
def map_memory (trap : Words8 → Words8) (phys virt : Option Nat)
    (count tsize flagsBits : Nat) : Except Error (Nat × Nat) :=
  match (syscall trap (map_memory_encode phys virt count tsize flagsBits)).1 with
  | .error e => .error e
  | .ok out =>
    if out.w0 ≠ SyscallResult.MemoryRange.toNat then .error .InternalError
    else .ok (out.w1, out.w2 / tsize)

/-- Encoded call of fn unmap_memory: UnmapMemory with the range address
and its byte length. -/
def unmap_memory_encode (addr lenBytes : Nat) : Words8 :=
  ⟨Syscall.UnmapMemory.toNat, addr, lenBytes, 0, 0, 0, 0, 0⟩

/-- fn unmap_memory: the syscall is issued first; on a decoded error
the question-mark operator returns early and the boxed range is dropped
at scope exit (a caller-side free), while on success the range is
forgotten afterwards. -/
def unmap_memory (trap : Words8 → Words8) (addr lenBytes : Nat) :
    Except Error Unit × List Event :=
  let (r, tr) := syscall trap (unmap_memory_encode addr lenBytes)
  match r with
  | .error e => (.error e, tr ++ [Event.dropBuf])
  | .ok _ => (.ok (), tr ++ [Event.forgetBuf])

/-- Encoded call of fn create_thread: CreateThread with the entry
point, the stack (address, length) and the 4 argument words. -/
def create_thread_encode (start stackAddr stackLen arg0 arg1 arg2 arg3 : Nat) : Words8 :=
  ⟨Syscall.CreateThread.toNat, start, stackAddr, stackLen, arg0, arg1, arg2, arg3⟩

/-- fn create_thread: the syscall is issued first; on a decoded error
the question-mark operator returns early and the boxed stack is dropped
at scope exit (a caller-side free).  On success the stack is forgotten,
then the ThreadId result-shape tag is required, yielding the ThreadId
from output word 1 or InternalError. -/
def create_thread (trap : Words8 → Words8)
    (start stackAddr stackLen arg0 arg1 arg2 arg3 : Nat) :
    Except Error ThreadId × List Event :=
  let (r, tr) := syscall trap (create_thread_encode start stackAddr stackLen arg0 arg1 arg2 arg3)
  match r with
  | .error e => (.error e, tr ++ [Event.dropBuf])
  | .ok out =>
    (if out.w0 ≠ SyscallResult.ThreadId.toNat then .error .InternalError
     else .ok ⟨out.w1⟩,
     tr ++ [Event.forgetBuf])

/-! ## Helper lemmas -/

/-- Every staging byte is below 256 when every source byte is. -/
lemma byteAt_lt : ∀ (b : List Nat), (∀ x ∈ b, x < 256) → ∀ i, byteAt b i < 256
  | [], _, _ => by simp [byteAt]
  | x :: _, hb, 0 => by simpa [byteAt] using hb x (by simp)
  | _ :: xs, hb, (i + 1) => by
      simpa [byteAt] using byteAt_lt xs (fun y hy => hb y (by simp [hy])) i

/-- Reading the 4 words of a freshly packed ServerAddress back as
little-endian bytes recovers the 16 staging bytes. -/
lemma decodeBytes_pack (b : List Nat) (hb : ∀ x ∈ b, x < 256) :
    ServerAddress.decodeBytes
        ⟨wordFromLe b 0, wordFromLe b 4, wordFromLe b 8, wordFromLe b 12⟩ =
      [byteAt b 0, byteAt b 1, byteAt b 2, byteAt b 3,
       byteAt b 4, byteAt b 5, byteAt b 6, byteAt b 7,
       byteAt b 8, byteAt b 9, byteAt b 10, byteAt b 11,
       byteAt b 12, byteAt b 13, byteAt b 14, byteAt b 15] := by
  have h0 := byteAt_lt b hb 0
  have h1 := byteAt_lt b hb 1
  have h2 := byteAt_lt b hb 2
  have h3 := byteAt_lt b hb 3
  have h4 := byteAt_lt b hb 4
  have h5 := byteAt_lt b hb 5
  have h6 := byteAt_lt b hb 6
  have h7 := byteAt_lt b hb 7
  have h8 := byteAt_lt b hb 8
  have h9 := byteAt_lt b hb 9
  have h10 := byteAt_lt b hb 10
  have h11 := byteAt_lt b hb 11
  have h12 := byteAt_lt b hb 12
  have h13 := byteAt_lt b hb 13
  have h14 := byteAt_lt b hb 14
  have h15 := byteAt_lt b hb 15
  simp only [ServerAddress.decodeBytes, wordToLe, wordFromLe, Nat.reduceAdd,
    Nat.zero_add, List.cons_append, List.nil_append, List.cons.injEq, and_true]
  omega

/-- The 16 staging bytes are the source bytes followed by zero padding
whenever there are at most 16 source bytes. -/
lemma byteList_pad (b : List Nat) (h : b.length ≤ 16) :
    [byteAt b 0, byteAt b 1, byteAt b 2, byteAt b 3,
     byteAt b 4, byteAt b 5, byteAt b 6, byteAt b 7,
     byteAt b 8, byteAt b 9, byteAt b 10, byteAt b 11,
     byteAt b 12, byteAt b 13, byteAt b 14, byteAt b 15] =
      b ++ List.replicate (16 - b.length) 0 := by
  rcases b with _ | ⟨y0, _ | ⟨y1, _ | ⟨y2, _ | ⟨y3, _ | ⟨y4, _ | ⟨y5, _ | ⟨y6, _ | ⟨y7,
    _ | ⟨y8, _ | ⟨y9, _ | ⟨y10, _ | ⟨y11, _ | ⟨y12, _ | ⟨y13, _ | ⟨y14, _ | ⟨y15,
    _ | ⟨y16, rest⟩⟩⟩⟩⟩⟩⟩⟩⟩⟩⟩⟩⟩⟩⟩⟩⟩
  all_goals first
    | rfl
    | (exfalso; simp only [List.length_cons] at h; omega)

/-! ## Claim theorems -/

/-- C1: for the move discipline (move and try_move), the boxed buffer
is consumed by a forget before the single trap is issued, and no drop
(caller-side free) ever occurs in the trace, whatever the kernel
response, success or error. -/
theorem claim_C1 (trap : Words8 → Words8) (conn : Connection)
    (opcode addr len arg1 arg2 : Nat) :
    (move trap conn opcode addr len arg1 arg2).2 =
      [Event.forgetBuf, Event.trap (move_encode conn opcode addr len arg1 arg2)
        (trap (move_encode conn opcode addr len arg1 arg2))] ∧
    List.count Event.dropBuf (move trap conn opcode addr len arg1 arg2).2 = 0 ∧
    (try_move trap conn opcode addr len arg1 arg2).2 =
      [Event.forgetBuf, Event.trap (try_move_encode conn opcode addr len arg1 arg2)
        (trap (try_move_encode conn opcode addr len arg1 arg2))] ∧
    List.count Event.dropBuf (try_move trap conn opcode addr len arg1 arg2).2 = 0 :=
  ⟨rfl, rfl, rfl, rfl⟩

/-- C2: evidence of the code bug.  When the kernel answers with the
error tag (here error code 3, OutOfMemory), both unmap_memory and
create_thread propagate the error through the early return BEFORE the
forget is reached, so the boxed range (resp. stack) is dropped, i.e.
freed on the caller side: the trace ends in a drop, contradicting the
stated unconditional relinquishment and the unmap_memory safety doc. -/
theorem claim_C2_bug :
    (unmap_memory (fun _ => ⟨1, 3, 0, 0, 0, 0, 0, 0⟩) 4096 64).1 =
      .error .OutOfMemory ∧
    (unmap_memory (fun _ => ⟨1, 3, 0, 0, 0, 0, 0, 0⟩) 4096 64).2 =
      [Event.trap (unmap_memory_encode 4096 64) ⟨1, 3, 0, 0, 0, 0, 0, 0⟩,
       Event.dropBuf] ∧
    (create_thread (fun _ => ⟨1, 3, 0, 0, 0, 0, 0, 0⟩) 512 8192 1024 0 0 0 0).1 =
      .error .OutOfMemory ∧
    (create_thread (fun _ => ⟨1, 3, 0, 0, 0, 0, 0, 0⟩) 512 8192 1024 0 0 0 0).2 =
      [Event.trap (create_thread_encode 512 8192 1024 0 0 0 0)
        ⟨1, 3, 0, 0, 0, 0, 0, 0⟩, Event.dropBuf] :=
  ⟨rfl, rfl, rfl, rfl⟩

/-- C3: the syscall encoder/decoder invokes the trap primitive exactly
once per call, fails exactly when output word 0 equals the reserved
error tag 1 (with the Error decoded from output word 1), and for every
other value of output word 0 returns all 8 output words unchanged. -/
theorem claim_C3 (trap : Words8 → Words8) (inp : Words8) :
    (syscall trap inp).2 = [Event.trap inp (trap inp)] ∧
    ((trap inp).w0 = 1 →
      (syscall trap inp).1 = .error (Error.fromUsize (trap inp).w1)) ∧
    ((trap inp).w0 ≠ 1 → (syscall trap inp).1 = .ok (trap inp)) := by
  refine ⟨rfl, fun h => ?_, fun h => ?_⟩
  · simp [syscall, h]
  · simp [syscall, h]

/-- C3 witness: a concrete failing response (tag 1, code 9) decodes to
ServerNotFound, a concrete succeeding response is passed through. -/
theorem claim_C3_witness :
    (syscall (fun _ => ⟨1, 9, 0, 0, 0, 0, 0, 0⟩) ⟨16, 0, 0, 0, 0, 0, 0, 0⟩).1 =
      .error .ServerNotFound ∧
    (syscall (fun _ => ⟨0, 5, 0, 0, 0, 0, 0, 0⟩) ⟨16, 0, 0, 0, 0, 0, 0, 0⟩).1 =
      .ok ⟨0, 5, 0, 0, 0, 0, 0, 0⟩ :=
  ⟨(claim_C3 (fun _ => ⟨1, 9, 0, 0, 0, 0, 0, 0⟩) ⟨16, 0, 0, 0, 0, 0, 0, 0⟩).2.1 rfl,
   (claim_C3 (fun _ => ⟨0, 5, 0, 0, 0, 0, 0, 0⟩) ⟨16, 0, 0, 0, 0, 0, 0, 0⟩).2.2
     (by decide)⟩

/-- C4: the error decode is total; every raw code 0 to 39 maps to the
kind with that numeric id, every larger code maps to UnknownError, a
non-negative i32 decodes like its usize reinterpretation, and every
negative i32 maps to UnknownError. -/
theorem claim_C4 :
    (∀ n : Nat, n ≤ 39 → (Error.fromUsize n).toNat = n) ∧
    (∀ n : Nat, 39 < n → Error.fromUsize n = .UnknownError) ∧
    (∀ i : Int, 0 ≤ i → Error.fromI32 i = Error.fromUsize i.toNat) ∧
    (∀ i : Int, i < 0 → Error.fromI32 i = .UnknownError) := by
  refine ⟨by decide, fun n h => ?_, fun i h => ?_, fun i h => ?_⟩
  · obtain ⟨m, rfl⟩ : ∃ m, n = m + 40 := ⟨n - 40, by omega⟩
    rfl
  · simp only [Error.fromI32]
    rw [if_neg (by omega)]
  · simp only [Error.fromI32]
    rw [if_pos h]

/-- C4 witness: concrete codes 9 and 100 and i32 inputs 38 and -5. -/
theorem claim_C4_witness :
    (Error.fromUsize 9).toNat = 9 ∧
    Error.fromUsize 100 = .UnknownError ∧
    Error.fromI32 38 = Error.fromUsize 38 ∧
    Error.fromI32 (-5) = .UnknownError :=
  ⟨claim_C4.1 9 (by decide), claim_C4.2.1 100 (by decide),
   claim_C4.2.2.1 38 (by decide), claim_C4.2.2.2 (-5) (by decide)⟩

/-- C7: evidence of the code bug.  Two successful responses carrying the
same payload words 1 and 2 (here knob id 2, value 5) are interpreted
differently: the Scalar2-tagged response (tag 15) yields output word 2,
the applied value 5, while the Scalar5-tagged response (tag 20) yields
output word 1, which the guard has just forced to equal the knob id, so
the call returns 2, never the limit value - contradicting the stated
identical interpretation of the two shapes and the function doc. -/
theorem claim_C7_bug :
    adjust_limit (fun _ => ⟨15, 2, 5, 0, 0, 0, 0, 0⟩) .HeapSize 7 5 = .ok 5 ∧
    adjust_limit (fun _ => ⟨20, 2, 5, 0, 0, 0, 0, 0⟩) .HeapSize 7 5 = .ok 2 ∧
    adjust_limit (fun _ => ⟨20, 2, 5, 0, 0, 0, 0, 0⟩) .HeapSize 7 5 =
      .ok Limits.HeapSize.toNat :=
  ⟨rfl, rfl, rfl⟩

/-- C10: adjust_limit requires the kernel to echo the knob id in output
word 1: every success response that does not echo it yields
InternalError, whatever the shape tag. -/
theorem claim_C10 (trap : Words8 → Words8) (knob : Limits) (current new : Nat)
    (h1 : (trap (adjust_limit_encode knob current new)).w0 ≠ 1)
    (h2 : (trap (adjust_limit_encode knob current new)).w1 ≠ knob.toNat) :
    adjust_limit trap knob current new = .error .InternalError := by
  simp [adjust_limit, syscall, h1, h2]

/-- C10 witness: a valid Scalar2 tag (15) whose output word 1 is 9, not
the HeapMaximum id 1, yields InternalError. -/
theorem claim_C10_witness :
    adjust_limit (fun _ => ⟨15, 9, 4, 0, 0, 0, 0, 0⟩) .HeapMaximum 7 5 =
      .error .InternalError :=
  claim_C10 (fun _ => ⟨15, 9, 4, 0, 0, 0, 0, 0⟩) .HeapMaximum 7 5
    (by decide) (by decide)

/-- C5: try_connect issues the same encoded call as connect; a kernel
ServerNotFound failure becomes the successful absent result, a kernel
success yields the connection built from output word 1, and every
other kernel error propagates unchanged. -/
theorem claim_C5 (trap : Words8 → Words8) (a : ServerAddress) :
    try_connect_encode a = connect_encode a ∧
    ((trap (connect_encode a)).w0 ≠ 1 →
      try_connect trap a = .ok (some ⟨(trap (connect_encode a)).w1 % 4294967296⟩)) ∧
    ((trap (connect_encode a)).w0 = 1 →
      Error.fromUsize (trap (connect_encode a)).w1 = .ServerNotFound →
      try_connect trap a = .ok none) ∧
    ((trap (connect_encode a)).w0 = 1 →
      Error.fromUsize (trap (connect_encode a)).w1 ≠ .ServerNotFound →
      try_connect trap a = .error (Error.fromUsize (trap (connect_encode a)).w1)) := by
  refine ⟨rfl, fun h => ?_, fun h h2 => ?_, fun h h2 => ?_⟩
  · show (match (syscall trap (connect_encode a)).1 with
      | .ok out => Except.ok (some (Connection.mk (out.w1 % 4294967296)))
      | .error .ServerNotFound => Except.ok none
      | .error e => Except.error e) = _
    simp [syscall, h]
  · show (match (syscall trap (connect_encode a)).1 with
      | .ok out => Except.ok (some (Connection.mk (out.w1 % 4294967296)))
      | .error .ServerNotFound => Except.ok none
      | .error e => Except.error e) = _
    simp [syscall, h, h2]
  · have hs : (syscall trap (connect_encode a)).1 =
        .error (Error.fromUsize (trap (connect_encode a)).w1) := by
      simp [syscall, h]
    show (match (syscall trap (connect_encode a)).1 with
      | .ok out => Except.ok (some (Connection.mk (out.w1 % 4294967296)))
      | .error .ServerNotFound => Except.ok none
      | .error e => Except.error e) = _
    rw [hs]
    generalize Error.fromUsize (trap (connect_encode a)).w1 = e at h2 ⊢
    cases e <;> first | exact absurd rfl h2 | rfl

/-- C5 witness: a success response yields the connection, error code 9
(ServerNotFound) yields the absent result, and error code 3
(OutOfMemory) propagates. -/
theorem claim_C5_witness :
    try_connect (fun _ => ⟨7, 42, 0, 0, 0, 0, 0, 0⟩) ⟨1, 2, 3, 4⟩ = .ok (some ⟨42⟩) ∧
    try_connect (fun _ => ⟨1, 9, 0, 0, 0, 0, 0, 0⟩) ⟨1, 2, 3, 4⟩ = .ok none ∧
    try_connect (fun _ => ⟨1, 3, 0, 0, 0, 0, 0, 0⟩) ⟨1, 2, 3, 4⟩ =
      .error .OutOfMemory :=
  ⟨(claim_C5 (fun _ => ⟨7, 42, 0, 0, 0, 0, 0, 0⟩) ⟨1, 2, 3, 4⟩).2.1 (by decide),
   (claim_C5 (fun _ => ⟨1, 9, 0, 0, 0, 0, 0, 0⟩) ⟨1, 2, 3, 4⟩).2.2.1 rfl (by decide),
   (claim_C5 (fun _ => ⟨1, 3, 0, 0, 0, 0, 0, 0⟩) ⟨1, 2, 3, 4⟩).2.2.2 rfl (by decide)⟩

/-- C6: for every source name of 1 to 16 bytes, ServerAddress
construction succeeds and decoding the 4 constituent words back into 16
bytes yields the original bytes followed by zero padding; a name of 0
or more than 16 bytes is rejected with InvalidLength. -/
theorem claim_C6 (b : List Nat) :
    (1 ≤ b.length → b.length ≤ 16 → (∀ x ∈ b, x < 256) →
      ∃ a, ServerAddress.tryFromBytes b = .ok a ∧
        a.decodeBytes = b ++ List.replicate (16 - b.length) 0) ∧
    (b.length = 0 ∨ 16 < b.length →
      ServerAddress.tryFromBytes b = .error .InvalidLength) := by
  constructor
  · intro h1 h2 hb
    refine ⟨⟨wordFromLe b 0, wordFromLe b 4, wordFromLe b 8, wordFromLe b 12⟩, ?_, ?_⟩
    · unfold ServerAddress.tryFromBytes
      rw [if_neg (by omega)]
    · rw [decodeBytes_pack b hb, byteList_pad b h2]
  · intro h
    unfold ServerAddress.tryFromBytes
    rw [if_pos h]

/-- C6 witness: the 3-byte name (1, 2, 3) packs and decodes back to
itself zero-padded to 16 bytes; the empty name and a 17-byte name are
rejected. -/
theorem claim_C6_witness :
    (∃ a, ServerAddress.tryFromBytes [1, 2, 3] = .ok a ∧
      a.decodeBytes = [1, 2, 3] ++ List.replicate 13 0) ∧
    ServerAddress.tryFromBytes [] = .error .InvalidLength ∧
    ServerAddress.tryFromBytes
        [1, 1, 1, 1, 1, 1, 1, 1, 1, 1, 1, 1, 1, 1, 1, 1, 1] =
      .error .InvalidLength :=
  ⟨(claim_C6 [1, 2, 3]).1 (by decide) (by decide) (by decide),
   (claim_C6 []).2 (by decide),
   (claim_C6 [1, 1, 1, 1, 1, 1, 1, 1, 1, 1, 1, 1, 1, 1, 1, 1, 1]).2 (by decide)⟩

/-- C8 counterexample: a non-error kernel response with the plain Ok
tag (0) - not the ConnectionId tag (7), not the Scalar5 tag (20) - is
accepted by connect and by blocking_scalar, which return the output
words instead of raising InternalError as the claim demands. -/
theorem claim_C8_cex :
    connect (fun _ => ⟨0, 42, 0, 0, 0, 0, 0, 0⟩) ⟨1, 2, 3, 4⟩ = .ok ⟨42⟩ ∧
    connect (fun _ => ⟨0, 42, 0, 0, 0, 0, 0, 0⟩) ⟨1, 2, 3, 4⟩ ≠
      .error .InternalError ∧
    blocking_scalar (fun _ => ⟨0, 11, 12, 13, 14, 15, 0, 0⟩) ⟨5⟩ 1 2 3 4 5 =
      .ok (11, 12, 13, 14, 15) ∧
    blocking_scalar (fun _ => ⟨0, 11, 12, 13, 14, 15, 0, 0⟩) ⟨5⟩ 1 2 3 4 5 ≠
      .error .InternalError :=
  ⟨rfl, by simp [connect, syscall], rfl, by simp [blocking_scalar, syscall]⟩

/-- C8 amended: among the call shapes named by the claim, map_memory
asserts the MemoryRange tag and create_thread asserts the ThreadId tag,
raising InternalError on every other non-error tag; connect and
blocking_scalar perform no tag assertion and return their result words
for every non-error response. -/
theorem claim_C8 (trap : Words8 → Words8) (a : ServerAddress) (conn : Connection)
    (phys virt : Option Nat) (count tsize flagsBits : Nat)
    (start stackAddr stackLen g0 g1 g2 g3 : Nat) (x0 x1 x2 x3 x4 : Nat) :
    ((trap (map_memory_encode phys virt count tsize flagsBits)).w0 ≠ 1 →
      (trap (map_memory_encode phys virt count tsize flagsBits)).w0 ≠
        SyscallResult.MemoryRange.toNat →
      map_memory trap phys virt count tsize flagsBits = .error .InternalError) ∧
    ((trap (create_thread_encode start stackAddr stackLen g0 g1 g2 g3)).w0 ≠ 1 →
      (trap (create_thread_encode start stackAddr stackLen g0 g1 g2 g3)).w0 ≠
        SyscallResult.ThreadId.toNat →
      (create_thread trap start stackAddr stackLen g0 g1 g2 g3).1 =
        .error .InternalError) ∧
    ((trap (connect_encode a)).w0 ≠ 1 →
      connect trap a = .ok ⟨(trap (connect_encode a)).w1 % 4294967296⟩) ∧
    ((trap (blocking_scalar_encode conn x0 x1 x2 x3 x4)).w0 ≠ 1 →
      blocking_scalar trap conn x0 x1 x2 x3 x4 =
        .ok ((trap (blocking_scalar_encode conn x0 x1 x2 x3 x4)).w1,
             (trap (blocking_scalar_encode conn x0 x1 x2 x3 x4)).w2,
             (trap (blocking_scalar_encode conn x0 x1 x2 x3 x4)).w3,
             (trap (blocking_scalar_encode conn x0 x1 x2 x3 x4)).w4,
             (trap (blocking_scalar_encode conn x0 x1 x2 x3 x4)).w5)) := by
  refine ⟨fun h1 h2 => ?_, fun h1 h2 => ?_, fun h => ?_, fun h => ?_⟩
  · simp [map_memory, syscall, h1, h2]
  · simp [create_thread, syscall, h1, h2]
  · simp [connect, syscall, h]
  · simp [blocking_scalar, syscall, h]

/-- C8 witness: map_memory and create_thread reject a plain Ok tag (0)
with InternalError; connect and blocking_scalar accept it. -/
theorem claim_C8_witness :
    map_memory (fun _ => ⟨0, 777, 64, 0, 0, 0, 0, 0⟩) none none 16 4 3 =
      .error .InternalError ∧
    (create_thread (fun _ => ⟨0, 777, 0, 0, 0, 0, 0, 0⟩) 512 8192 1024 0 0 0 0).1 =
      .error .InternalError ∧
    connect (fun _ => ⟨0, 43, 0, 0, 0, 0, 0, 0⟩) ⟨9, 9, 9, 9⟩ = .ok ⟨43⟩ ∧
    blocking_scalar (fun _ => ⟨0, 21, 22, 23, 24, 25, 0, 0⟩) ⟨6⟩ 1 2 3 4 5 =
      .ok (21, 22, 23, 24, 25) :=
  ⟨(claim_C8 (fun _ => ⟨0, 777, 64, 0, 0, 0, 0, 0⟩) ⟨9, 9, 9, 9⟩ ⟨6⟩ none none
      16 4 3 512 8192 1024 0 0 0 0 1 2 3 4 5).1 (by decide) (by decide),
   (claim_C8 (fun _ => ⟨0, 777, 0, 0, 0, 0, 0, 0⟩) ⟨9, 9, 9, 9⟩ ⟨6⟩ none none
      16 4 3 512 8192 1024 0 0 0 0 1 2 3 4 5).2.1 (by decide) (by decide),
   (claim_C8 (fun _ => ⟨0, 43, 0, 0, 0, 0, 0, 0⟩) ⟨9, 9, 9, 9⟩ ⟨6⟩ none none
      16 4 3 512 8192 1024 0 0 0 0 1 2 3 4 5).2.2.1 (by decide),
   (claim_C8 (fun _ => ⟨0, 21, 22, 23, 24, 25, 0, 0⟩) ⟨9, 9, 9, 9⟩ ⟨6⟩ none none
      16 4 3 512 8192 1024 0 0 0 0 1 2 3 4 5).2.2.2 (by decide)⟩

/-- Argument words 1 to 7 of two encoded calls agree. -/
def sameTail (x y : Words8) : Prop :=
  x.w1 = y.w1 ∧ x.w2 = y.w2 ∧ x.w3 = y.w3 ∧ x.w4 = y.w4 ∧
    x.w5 = y.w5 ∧ x.w6 = y.w6 ∧ x.w7 = y.w7

/-- C9 counterexample: the encoded call of try_connect at a concrete
address is identical to that of connect, word 0 (the syscall-kind
selector) included: both carry the Connect kind (17), so the selector
of the non-blocking variant is NOT distinct from the blocking one,
refuting the claim for the try_connect / connect pair. -/
theorem claim_C9_cex :
    try_connect_encode ⟨1, 2, 3, 4⟩ = connect_encode ⟨1, 2, 3, 4⟩ ∧
    (try_connect_encode ⟨1, 2, 3, 4⟩).w0 = (connect_encode ⟨1, 2, 3, 4⟩).w0 ∧
    (try_connect_encode ⟨1, 2, 3, 4⟩).w0 = Syscall.Connect.toNat :=
  ⟨rfl, rfl, rfl⟩

/-- C9 amended: for try_lend_mut, try_lend, try_scalar,
try_blocking_scalar and try_move the encoded 8-word call is identical
to the blocking counterpart except the selector word, a dedicated
distinct non-blocking kind (TrySendMessage, 24, against SendMessage,
16); try_connect, however, encodes a call fully identical to that of
connect, its selector included (Connect, 17). -/
theorem claim_C9 (conn : Connection) (opcode addr len arg1 arg2 : Nat)
    (x0 x1 x2 x3 x4 : Nat) (a : ServerAddress) :
    sameTail (try_lend_mut_encode conn opcode addr len arg1 arg2)
      (lend_mut_encode conn opcode addr len arg1 arg2) ∧
    (try_lend_mut_encode conn opcode addr len arg1 arg2).w0 =
      Syscall.TrySendMessage.toNat ∧
    (lend_mut_encode conn opcode addr len arg1 arg2).w0 =
      Syscall.SendMessage.toNat ∧
    sameTail (try_lend_encode conn opcode addr len arg1 arg2)
      (lend_encode conn opcode addr len arg1 arg2) ∧
    (try_lend_encode conn opcode addr len arg1 arg2).w0 =
      Syscall.TrySendMessage.toNat ∧
    (lend_encode conn opcode addr len arg1 arg2).w0 =
      Syscall.SendMessage.toNat ∧
    sameTail (try_scalar_encode conn x0 x1 x2 x3 x4)
      (scalar_encode conn x0 x1 x2 x3 x4) ∧
    (try_scalar_encode conn x0 x1 x2 x3 x4).w0 = Syscall.TrySendMessage.toNat ∧
    (scalar_encode conn x0 x1 x2 x3 x4).w0 = Syscall.SendMessage.toNat ∧
    sameTail (try_blocking_scalar_encode conn x0 x1 x2 x3 x4)
      (blocking_scalar_encode conn x0 x1 x2 x3 x4) ∧
    (try_blocking_scalar_encode conn x0 x1 x2 x3 x4).w0 =
      Syscall.TrySendMessage.toNat ∧
    (blocking_scalar_encode conn x0 x1 x2 x3 x4).w0 =
      Syscall.SendMessage.toNat ∧
    sameTail (try_move_encode conn opcode addr len arg1 arg2)
      (move_encode conn opcode addr len arg1 arg2) ∧
    (try_move_encode conn opcode addr len arg1 arg2).w0 =
      Syscall.TrySendMessage.toNat ∧
    (move_encode conn opcode addr len arg1 arg2).w0 =
      Syscall.SendMessage.toNat ∧
    Syscall.TrySendMessage.toNat ≠ Syscall.SendMessage.toNat ∧
    try_connect_encode a = connect_encode a ∧
    (try_connect_encode a).w0 = Syscall.Connect.toNat :=
  ⟨⟨rfl, rfl, rfl, rfl, rfl, rfl, rfl⟩, rfl, rfl,
   ⟨rfl, rfl, rfl, rfl, rfl, rfl, rfl⟩, rfl, rfl,
   ⟨rfl, rfl, rfl, rfl, rfl, rfl, rfl⟩, rfl, rfl,
   ⟨rfl, rfl, rfl, rfl, rfl, rfl, rfl⟩, rfl, rfl,
   ⟨rfl, rfl, rfl, rfl, rfl, rfl, rfl⟩, rfl, rfl,
   by decide, rfl, rfl⟩

end Xous
